import Mathlib

/-!
Shallow embedding of the fullstack product-catalog repository:
the Express router `src/server/src/router.ts`, the client validator
`src/client/src/services/ProductService.ts`, and the server bootstrap
(`connectDB` and module initialisation).  Pieces of the repository
referenced but not present among the sources (the `handleInputErrors`
middleware, the product handlers and the ORM-backed store, the valibot
draft schema) are modelled from the specification and marked as such
in their doc comments.
-/

set_option autoImplicit false

namespace ProductApp

/-- A JSON value as it arrives in a request body parsed by express.json:
a string, a number (modelled as a rational, which covers every decimal
JSON literal), a boolean, or null. -/
inductive JVal where
  | vStr (s : String)
  | vNum (q : ℚ)
  | vBool (b : Bool)
  | vNull
  deriving DecidableEq

/-- An HTTP request as the router sees it: path parameters (raw strings)
and a JSON body (field name to value). -/
structure Request where
  params : List (String × String)
  body : List (String × JVal)
  deriving DecidableEq

/-- Look up a path parameter by name. -/
def getParam (req : Request) (k : String) : Option String :=
  (req.params.find? (fun p => p.1 == k)).map (fun p => p.2)

/-- Look up a body field by name; `none` models a missing (undefined) field. -/
def lookupField (b : List (String × JVal)) (k : String) : Option JVal :=
  (b.find? (fun p => p.1 == k)).map (fun p => p.2)

/-! ### String-to-number semantics used by the validators and by the client -/

/-- Numeric value of a list of decimal digit characters. -/
def decDigitsVal (cs : List Char) : Nat :=
  cs.foldl (fun a c => a * 10 + (c.toNat - 48)) 0

/-- Split a character list on the dot character, keeping empty groups. -/
def splitOnDot : List Char → List (List Char)
  | [] => [[]]
  | c :: rest =>
      let r := splitOnDot rest
      if c = '.' then [] :: r
      else
        match r with
        | h :: t => (c :: h) :: t
        | [] => [[c]]

/-- Parse an unsigned decimal literal the way JS ToNumber reads one:
digits, optionally split by a single dot, with at least one digit present.
Returns `none` when the text is not such a literal (NaN). -/
def parseUnsignedDec (t : List Char) : Option ℚ :=
  match splitOnDot t with
  | [a] =>
      if !a.isEmpty && a.all Char.isDigit then some (decDigitsVal a) else none
  | [a, b] =>
      if (!a.isEmpty || !b.isEmpty) && a.all Char.isDigit && b.all Char.isDigit then
        some ((decDigitsVal a : ℚ) + (decDigitsVal b : ℚ) / ((10 : ℚ) ^ b.length))
      else none
  | _ => none

/-- Strip leading and trailing whitespace, as JS ToNumber does before
reading a numeric literal. -/
def trimWs (s : String) : String :=
  String.mk (((s.data.dropWhile Char.isWhitespace).reverse.dropWhile
    Char.isWhitespace).reverse)

/-- JS ToNumber on a string, as performed by the unary plus in
`+data.price`: an empty (or all-space) string converts to 0, a signed
decimal literal to its value, anything else to NaN, modelled as `none`.
Unary plus on a string never raises an exception. -/
def strToNumber (s : String) : Option ℚ :=
  match (trimWs s).data with
  | [] => some 0
  | '-' :: cs => (parseUnsignedDec cs).map (fun q => -q)
  | '+' :: cs => parseUnsignedDec cs
  | cs => parseUnsignedDec cs

/-- Parse a string as an optionally signed integer, the shape accepted by
the validator.js `isInt` check and the shape of a usable row id. -/
def parseIntStr (s : String) : Option Int :=
  match s.data with
  | '-' :: cs =>
      if cs ≠ [] && cs.all Char.isDigit then some (-(decDigitsVal cs : Int)) else none
  | '+' :: cs =>
      if cs ≠ [] && cs.all Char.isDigit then some (decDigitsVal cs : Int) else none
  | cs =>
      if cs ≠ [] && cs.all Char.isDigit then some (decDigitsVal cs : Int) else none

/-- validator.js `isInt` on a string: an optional sign followed by one or
more digits. -/
def isIntStr (s : String) : Bool :=
  (parseIntStr s).isSome

/-- validator.js `isNumeric` on a string: optional sign, optional integer
part, optional dot, and a mandatory final digit group. -/
def isNumericStr (s : String) : Bool :=
  let t : List Char :=
    match s.data with
    | '-' :: cs => cs
    | '+' :: cs => cs
    | cs => cs
  match splitOnDot t with
  | [a] => !a.isEmpty && a.all Char.isDigit
  | [a, b] => !b.isEmpty && a.all Char.isDigit && b.all Char.isDigit
  | _ => false

/-! ### express-validator field checks, as used in router.ts -/

/-- express-validator `notEmpty`: a missing or null field and the empty
string are empty; numbers and booleans stringify to non-empty text. -/
def notEmptyVal : Option JVal → Bool
  | none => false
  | some JVal.vNull => false
  | some (JVal.vStr s) => !(s == "")
  | some (JVal.vNum _) => true
  | some (JVal.vBool _) => true

/-- express-validator `isNumeric`: a number passes, a string passes when it
is a numeric literal, everything else (missing, null, boolean) fails. -/
def isNumericVal : Option JVal → Bool
  | some (JVal.vNum _) => true
  | some (JVal.vStr s) => isNumericStr s
  | _ => false

/-- express-validator `isBoolean`: a boolean passes, and so do the strings
and numbers whose text form is true, false, 0 or 1. -/
def isBooleanVal : Option JVal → Bool
  | some (JVal.vBool _) => true
  | some (JVal.vStr s) => s == "true" || s == "false" || s == "0" || s == "1"
  | some (JVal.vNum q) => q == 0 || q == 1
  | _ => false

/-- JS ToNumber on a JSON value, used by the custom price check
`(value) => value > 0`: numbers stay, strings convert as `strToNumber`,
booleans convert to 1 or 0, null converts to 0. -/
def jToNumber : JVal → Option ℚ
  | JVal.vNum q => some q
  | JVal.vStr s => strToNumber s
  | JVal.vBool b => some (if b then 1 else 0)
  | JVal.vNull => some 0

/-- The custom check `(value) => value > 0` from router.ts under JS
comparison semantics: a missing field compares as NaN and fails, and any
NaN conversion fails. -/
def jsGtZero : Option JVal → Bool
  | none => false
  | some v =>
      match jToNumber v with
      | some q => decide (0 < q)
      | none => false

/-! ### Validator chains and the middleware -/

/-- One itemized validation error, the `{field, message}` shape of the
response body on a 400. -/
structure ErrItem where
  field : String
  message : String
  deriving DecidableEq

/-- One declarative field check of a validator chain: a field path, a
predicate on the request, and the human-readable failure message attached
with `withMessage`. -/
structure FieldCheck where
  field : String
  message : String
  passes : Request → Bool

/-- Run a validator chain the way express-validator does: evaluate every
check in order and append an error item for each failing one, never
stopping at the first failure. -/
def runChain : List FieldCheck → Request → List ErrItem
  | [], _ => []
  | c :: cs, req =>
      (if c.passes req then [] else [ErrItem.mk c.field c.message]) ++ runChain cs req

/-- The product row stored in the database: id assigned by the store,
name, price, and the availability flag. -/
structure Product where
  id : Nat
  name : String
  price : ℚ
  availability : Bool
  deriving DecidableEq

/-- The body of a JSON response: a validation-error list, a single
product, a product list, an error message, or a confirmation string. -/
inductive RespBody where
  | errors (es : List ErrItem)
  | product (p : Product)
  | products (ps : List Product)
  | errMsg (m : String)
  | msg (m : String)
  deriving DecidableEq

/-- An HTTP response: a status code and a JSON body. -/
structure Response where
  status : Nat
  body : RespBody
  deriving DecidableEq

/-- Modelled from the spec: the ORM-backed persistence layer (the Product
model and its relational table) is not among the sources.  The store is
the list of persisted rows together with the next auto-increment id the
store will assign. -/
structure Store where
  products : List Product
  nextId : Nat
  deriving DecidableEq

/-- The store of a freshly created database: no rows, auto-increment
starting at 1. -/
def emptyStore : Store :=
  Store.mk [] 1

/-- Find a row by primary key, as the ORM findByPk does on this store. -/
def findById (s : Store) (i : Int) : Option Product :=
  s.products.find? (fun p => (p.id : Int) == i)

/-- Modelled from the spec: the `handleInputErrors` middleware lives in
`src/server/src/middleware`, which is not among the sources.  The spec
says it rejects with status 400 and the collected error list as body when
that list is non-empty, and otherwise passes control to the handler with
the request unchanged. -/
def handleInputErrors (errs : List ErrItem)
    (next : Store → Request → Response × Store) (s : Store) (req : Request) :
    Response × Store :=
  if errs.isEmpty then next s req else (Response.mk 400 (RespBody.errors errs), s)

/-- A route that chains a validator list, `handleInputErrors`, and a
handler, the composition router.ts builds for GET, POST, PUT and DELETE. -/
def route (checks : List FieldCheck)
    (handler : Store → Request → Response × Store) (s : Store) (req : Request) :
    Response × Store :=
  handleInputErrors (runChain checks req) handler s req

/-! ### Handlers, modelled from the spec (handlers/product is not among
the sources) -/

/-- Modelled from the spec: the `getProductById` handler in
`src/server/src/handlers/product` is not among the sources.  The spec
says: fetch a single row; if absent, return 404 with an error message;
else 200 and the object. -/
def getProductById (s : Store) (req : Request) : Response × Store :=
  match (getParam req "id").bind parseIntStr with
  | none => (Response.mk 404 (RespBody.errMsg "Producto No Encontrado"), s)
  | some i =>
      match findById s i with
      | none => (Response.mk 404 (RespBody.errMsg "Producto No Encontrado"), s)
      | some p => (Response.mk 200 (RespBody.product p), s)

/-- Modelled from the spec: the `createProduct` handler in
`src/server/src/handlers/product` is not among the sources.  The spec
says: construct a new row with availability true, persist it (the store
assigns the id), and return 201 with the created object; an unexpected
persistence shape is a 500 with a generic message. -/
def createProduct (s : Store) (req : Request) : Response × Store :=
  match lookupField req.body "name", lookupField req.body "price" with
  | some (JVal.vStr n), some (JVal.vNum q) =>
      let p : Product := Product.mk s.nextId n q true
      (Response.mk 201 (RespBody.product p), Store.mk (s.products ++ [p]) (s.nextId + 1))
  | _, _ => (Response.mk 500 (RespBody.errMsg "Hubo un error"), s)

/-- Modelled from the spec: the `updateProduct` handler in
`src/server/src/handlers/product` is not among the sources.  The spec
says: fetch the row by id; if absent, 404; else overwrite name, price and
availability, persist, and return 200 with the updated object. -/
def updateProduct (s : Store) (req : Request) : Response × Store :=
  match (getParam req "id").bind parseIntStr with
  | none => (Response.mk 404 (RespBody.errMsg "Producto No Encontrado"), s)
  | some i =>
      match findById s i with
      | none => (Response.mk 404 (RespBody.errMsg "Producto No Encontrado"), s)
      | some p =>
          match lookupField req.body "name", lookupField req.body "price",
              lookupField req.body "availability" with
          | some (JVal.vStr n), some (JVal.vNum q), some (JVal.vBool b) =>
              let p2 : Product := Product.mk p.id n q b
              (Response.mk 200 (RespBody.product p2),
               Store.mk (s.products.map (fun x => if x.id == p.id then p2 else x)) s.nextId)
          | _, _, _ => (Response.mk 500 (RespBody.errMsg "Hubo un error"), s)

/-- Modelled from the spec: the `updateAvailability` handler in
`src/server/src/handlers/product` is not among the sources.  The spec
says: fetch the row; if absent, 404; else toggle the availability field,
persist, and return 200 with the updated object.  An id that does not
parse matches no primary key and is treated as absent. -/
def updateAvailability (s : Store) (req : Request) : Response × Store :=
  match (getParam req "id").bind parseIntStr with
  | none => (Response.mk 404 (RespBody.errMsg "Producto No Encontrado"), s)
  | some i =>
      match findById s i with
      | none => (Response.mk 404 (RespBody.errMsg "Producto No Encontrado"), s)
      | some p =>
          let p2 : Product := Product.mk p.id p.name p.price (!p.availability)
          (Response.mk 200 (RespBody.product p2),
           Store.mk (s.products.map (fun x => if x.id == p.id then p2 else x)) s.nextId)

/-- Modelled from the spec: the `deleteProduct` handler in
`src/server/src/handlers/product` is not among the sources.  The spec
says: fetch the row; if absent, 404; else remove the row and return 200
with a confirmation string. -/
def deleteProduct (s : Store) (req : Request) : Response × Store :=
  match (getParam req "id").bind parseIntStr with
  | none => (Response.mk 404 (RespBody.errMsg "Producto No Encontrado"), s)
  | some i =>
      match findById s i with
      | none => (Response.mk 404 (RespBody.errMsg "Producto No Encontrado"), s)
      | some _ =>
          (Response.mk 200 (RespBody.msg "Producto Eliminado"),
           Store.mk (s.products.filter (fun x => !((x.id : Int) == i))) s.nextId)

/-! ### The routes of router.ts -/

/-- `param("id").isInt().withMessage("ID no válido")` from router.ts. -/
def idIsIntCheck : FieldCheck :=
  FieldCheck.mk "id" "ID no válido"
    (fun req =>
      match getParam req "id" with
      | some s => isIntStr s
      | none => false)

/-- `body("name").notEmpty().withMessage(...)` from router.ts. -/
def nameNotEmptyCheck : FieldCheck :=
  FieldCheck.mk "name" "El nombre del producto no puede ir vacío"
    (fun req => notEmptyVal (lookupField req.body "name"))

/-- `body("price").isNumeric().withMessage("Valor no válido")` from router.ts. -/
def priceIsNumericCheck : FieldCheck :=
  FieldCheck.mk "price" "Valor no válido"
    (fun req => isNumericVal (lookupField req.body "price"))

/-- `body("price").notEmpty().withMessage(...)` from router.ts. -/
def priceNotEmptyCheck : FieldCheck :=
  FieldCheck.mk "price" "El precio del producto no puede ir vacío"
    (fun req => notEmptyVal (lookupField req.body "price"))

/-- `body("price").custom((value) => value > 0).withMessage("Precio no válido")`
from router.ts. -/
def pricePositiveCheck : FieldCheck :=
  FieldCheck.mk "price" "Precio no válido"
    (fun req => jsGtZero (lookupField req.body "price"))

/-- `body("availability").isBoolean().withMessage(...)` from router.ts. -/
def availabilityIsBooleanCheck : FieldCheck :=
  FieldCheck.mk "availability" "Valor para disponibilidad no válido"
    (fun req => isBooleanVal (lookupField req.body "availability"))

/-- The validator chain of `router.get("/:id", ...)`. -/
def getByIdChecks : List FieldCheck :=
  [idIsIntCheck]

/-- The validator chain of `router.post("/", ...)`. -/
def postChecks : List FieldCheck :=
  [nameNotEmptyCheck, priceIsNumericCheck, priceNotEmptyCheck, pricePositiveCheck]

/-- The validator chain of `router.put("/:id", ...)`. -/
def putChecks : List FieldCheck :=
  [idIsIntCheck, nameNotEmptyCheck, priceIsNumericCheck, priceNotEmptyCheck,
   pricePositiveCheck, availabilityIsBooleanCheck]

/-- The validator chain of `router.delete("/:id", ...)`. -/
def deleteChecks : List FieldCheck :=
  [idIsIntCheck]

/-- The validator attached to `router.patch("/:id", ...)`: the same
`param("id").isInt()` as the other id routes.  The patch route never
consults its result, see `patchRoute`. -/
def patchChecks : List FieldCheck :=
  [idIsIntCheck]

/-- `router.get("/:id", param("id").isInt()..., handleInputErrors, getProductById)`. -/
def getByIdRoute (s : Store) (req : Request) : Response × Store :=
  route getByIdChecks getProductById s req

/-- `router.post("/", body(...)..., handleInputErrors, createProduct)`. -/
def postRoute (s : Store) (req : Request) : Response × Store :=
  route postChecks createProduct s req

/-- `router.put("/:id", param(...)..., body(...)..., handleInputErrors, updateProduct)`. -/
def putRoute (s : Store) (req : Request) : Response × Store :=
  route putChecks updateProduct s req

/-- `router.delete("/:id", param("id").isInt()..., handleInputErrors, deleteProduct)`. -/
def deleteRoute (s : Store) (req : Request) : Response × Store :=
  route deleteChecks deleteProduct s req

/-- `router.patch("/:id", param("id").isInt().withMessage("ID no válido"),
updateAvailability)`: unlike every other route, the middleware
`handleInputErrors` is NOT in the chain, so the accumulated validation
errors are never inspected and the handler always runs. -/
def patchRoute (s : Store) (req : Request) : Response × Store :=
  updateAvailability s req

/-! ### The client-side validator, src/client/src/services/ProductService.ts -/

/-- The raw form entries handed to `addProduct`: string-valued fields
`name` and `price`, the two fields the service reads. -/
structure ProductData where
  name : String
  price : String
  deriving DecidableEq

/-- Modelled from the spec: `DraftProductSchema` lives in
`src/client/src/types`, which is not among the sources.  The spec says
the draft schema requires `name` (non-empty) and `price` (a number,
positive, mirrored from the server rules); a NaN price (`none`) fails. -/
def draftValid (name : String) (price : Option ℚ) : Bool :=
  (!(name == "")) &&
    (match price with
     | some q => decide (0 < q)
     | none => false)

/-- The body of the `try` block of `addProduct`: coerce `price` with unary
plus, run `safeParse` against the draft schema, do nothing on success, and
throw the error "Datos no válidos" on failure.  `Except.error` is a raised
exception that has not yet met the catch. -/
def addProductBody (d : ProductData) : Except String Unit :=
  if draftValid d.name (strToNumber d.price) then Except.ok ()
  else Except.error "Datos no válidos"

/-- `addProduct` from ProductService.ts: the whole body runs inside
`try ... catch (error) \x7b \x7d` with an empty catch block, so every
exception the body raises, including the one it throws itself on invalid
data, is swallowed and the function returns normally. -/
def addProduct (d : ProductData) : Except String Unit :=
  match addProductBody d with
  | Except.ok u => Except.ok u
  | Except.error _ => Except.ok ()

/-! ### Server bootstrap: connectDB and module initialisation
(src/unnamed/part_000 and part_001, identical in the relevant lines) -/

/-- The observable outcome of one run of `connectDB`. -/
structure ConnectDBRun where
  returnedNormally : Bool
  errorLogged : Bool
  unhandledSyncRejection : Bool
  deriving DecidableEq

/-- `connectDB` from the server bootstrap: `await db.authenticate()` is
inside `try`, so a rejected authentication is caught and logged.
`db.sync()` is called WITHOUT `await`, so when the sync promise rejects
the rejection escapes the try-catch as an unhandled rejection and is not
logged by the catch block.  In every case the function itself returns
normally. -/
def connectDB (auth : Except String Unit) (sync : Except String Unit) : ConnectDBRun :=
  match auth with
  | Except.error _ => ConnectDBRun.mk true true false
  | Except.ok _ =>
      match sync with
      | Except.error _ => ConnectDBRun.mk true false true
      | Except.ok _ => ConnectDBRun.mk true false false

/-- The module-level state after the bootstrap file runs: the recorded
`connectDB` run and whether `const server = express()` was reached and the
server object exported. -/
structure ServerModule where
  dbConnectRun : ConnectDBRun
  serverExported : Bool
  deriving DecidableEq

/-- The top level of the bootstrap file: `connectDB()` is invoked without
`await`, then `const server = express()` and the export run
unconditionally. -/
def initServerModule (auth : Except String Unit) (sync : Except String Unit) : ServerModule :=
  ServerModule.mk (connectDB auth sync) true

/-! ### Helper lemmas -/

/-- Running a chain collects exactly the failing checks, in order. -/
theorem runChain_eq_filterMap (checks : List FieldCheck) (req : Request) :
    runChain checks req =
      (checks.filter (fun c => !(c.passes req))).map
        (fun c => ErrItem.mk c.field c.message) := by
  induction checks with
  | nil => rfl
  | cons c cs ih =>
      by_cases h : c.passes req = true
      · simp [runChain, List.filter, h, ih]
      · rw [Bool.not_eq_true] at h
        simp [runChain, List.filter, h, ih]

/-- The error item of a failing check of the chain appears in the run. -/
theorem mem_runChain_of_fails {checks : List FieldCheck} {req : Request}
    {c : FieldCheck} (hc : c ∈ checks) (hf : c.passes req = false) :
    ErrItem.mk c.field c.message ∈ runChain checks req := by
  rw [runChain_eq_filterMap]
  exact List.mem_map.mpr ⟨c, List.mem_filter.mpr ⟨hc, by simp [hf]⟩, rfl⟩

/-- A route whose chain contains a failing check answers 400 with the
full error list and leaves the store untouched. -/
theorem route_apply_fail {checks : List FieldCheck}
    {handler : Store → Request → Response × Store} {s : Store} {req : Request}
    {c : FieldCheck} (hc : c ∈ checks) (hf : c.passes req = false) :
    route checks handler s req =
      (Response.mk 400 (RespBody.errors (runChain checks req)), s)
    ∧ ErrItem.mk c.field c.message ∈ runChain checks req := by
  have hmem := mem_runChain_of_fails hc hf
  refine ⟨?_, hmem⟩
  unfold route handleInputErrors
  cases h : runChain checks req with
  | nil => rw [h] at hmem; cases hmem
  | cons e es => simp [h]

/-- A route whose chain reports no error hands the untouched request and
store to the handler. -/
theorem route_eq_handler_of_nil {checks : List FieldCheck}
    {handler : Store → Request → Response × Store} {s : Store} {req : Request}
    (h : runChain checks req = []) :
    route checks handler s req = handler s req := by
  unfold route handleInputErrors
  simp [h]

/-- A route whose chain reports at least one error answers 400 with the
full error list and leaves the store untouched. -/
theorem route_eq_400_of_ne_nil {checks : List FieldCheck}
    {handler : Store → Request → Response × Store} {s : Store} {req : Request}
    (h : runChain checks req ≠ []) :
    route checks handler s req =
      (Response.mk 400 (RespBody.errors (runChain checks req)), s) := by
  unfold route handleInputErrors
  cases hc : runChain checks req with
  | nil => exact absurd hc h
  | cons e es => simp

/-- After filtering out every row whose id matches, no lookup of that id
succeeds. -/
theorem findById_filter_self (l : List Product) (n : Nat) (i : Int) :
    findById (Store.mk (l.filter (fun x => !((x.id : Int) == i))) n) i = none := by
  unfold findById
  rw [List.find?_eq_none]
  intro x hx
  rcases List.mem_filter.mp hx with ⟨-, hpx⟩
  simpa using hpx

/-! ### Claim theorems -/

/-- C3: for every request passing through a validator chain, all failing
predicates, not just the first, are collected into a list of field and
message pairs; when that list is non-empty the request is rejected with
status 400 and the list as body, and otherwise control passes to the
handler with the request and store unchanged. -/
theorem validator_chain_contract (checks : List FieldCheck)
    (handler : Store → Request → Response × Store) (s : Store) (req : Request) :
    runChain checks req =
      (checks.filter (fun c => !(c.passes req))).map
        (fun c => ErrItem.mk c.field c.message)
    ∧ route checks handler s req =
        (if runChain checks req = [] then handler s req
         else (Response.mk 400 (RespBody.errors (runChain checks req)), s)) := by
  refine ⟨runChain_eq_filterMap checks req, ?_⟩
  unfold route handleInputErrors
  cases h : runChain checks req with
  | nil => simp
  | cons e es => simp

/-- C1: the claim that a PATCH with a non-integer id is rejected with 400
before the handler runs is contradicted by the code: router.patch omits
handleInputErrors, so on id "hola" the isInt validator records an error
that nobody reads, the handler updateAvailability runs anyway, and the
response is a 404 from the handler, not a 400 rejection. -/
theorem patch_route_skips_validation :
    runChain patchChecks (Request.mk [("id", "hola")] []) =
      [ErrItem.mk "id" "ID no válido"]
    ∧ patchRoute emptyStore (Request.mk [("id", "hola")] []) =
        (Response.mk 404 (RespBody.errMsg "Producto No Encontrado"), emptyStore)
    ∧ (patchRoute emptyStore (Request.mk [("id", "hola")] [])).1.status ≠ 400 := by
  refine ⟨by decide, by decide, by decide⟩

/-- C2: the claim that addProduct surfaces the generic invalid-data
condition to its caller is contradicted by the code: on the form with
empty name and price "10" the draft validation fails and the body raises
the error "Datos no válidos", yet addProduct returns normally because its
own catch block swallows the exception, so nothing reaches the caller. -/
theorem addProduct_swallow_counterexample :
    draftValid "" (strToNumber "10") = false
    ∧ addProductBody (ProductData.mk "" "10") = Except.error "Datos no válidos"
    ∧ addProduct (ProductData.mk "" "10") = Except.ok () := by
  refine ⟨by decide, by rfl, by rfl⟩

/-- C2 (amended): addProduct never propagates anything to its caller: it
returns normally on every input; on a form failing draft validation the
body raises the generic error "Datos no válidos" internally, and the
empty catch block swallows it together with any other exception. -/
theorem addProduct_never_propagates (d : ProductData) :
    addProduct d = Except.ok ()
    ∧ (draftValid d.name (strToNumber d.price) = false →
        addProductBody d = Except.error "Datos no válidos") := by
  constructor
  · unfold addProduct addProductBody
    by_cases h : draftValid d.name (strToNumber d.price) = true
    · simp [h]
    · rw [Bool.not_eq_true] at h
      simp [h]
  · intro h
    unfold addProductBody
    simp [h]

/-- C2 (amended) witness: on the concrete form with name "x" and price
"0" the draft validation fails, addProduct still returns normally, and
the internally raised error is the generic invalid-data one. -/
theorem addProduct_never_propagates_witness :
    addProduct (ProductData.mk "x" "0") = Except.ok ()
    ∧ addProductBody (ProductData.mk "x" "0") = Except.error "Datos no válidos" :=
  ⟨(addProduct_never_propagates (ProductData.mk "x" "0")).1,
   (addProduct_never_propagates (ProductData.mk "x" "0")).2 (by decide)⟩

/-- C4: every POST and every PUT whose price field holds a number less
than or equal to 0 is rejected with status 400 and the store is not
touched, so no persistence access happens. -/
theorem price_nonpositive_rejected (s : Store) (req : Request) (q : ℚ)
    (hp : lookupField req.body "price" = some (JVal.vNum q)) (hq : q ≤ 0) :
    ((postRoute s req).1.status = 400 ∧ (postRoute s req).2 = s)
    ∧ ((putRoute s req).1.status = 400 ∧ (putRoute s req).2 = s) := by
  have hf : pricePositiveCheck.passes req = false := by
    unfold pricePositiveCheck
    simp only [hp, jsGtZero, jToNumber]
    simpa using not_lt.mpr hq
  have hpost := @route_apply_fail postChecks createProduct s req
    pricePositiveCheck (by simp [postChecks]) hf
  have hput := @route_apply_fail putChecks updateProduct s req
    pricePositiveCheck (by simp [putChecks]) hf
  refine ⟨⟨?_, ?_⟩, ⟨?_, ?_⟩⟩
  · show (route postChecks createProduct s req).1.status = 400
    rw [hpost.1]
  · show (route postChecks createProduct s req).2 = s
    rw [hpost.1]
  · show (route putChecks updateProduct s req).1.status = 400
    rw [hput.1]
  · show (route putChecks updateProduct s req).2 = s
    rw [hput.1]

/-- C4 witness: the concrete POST and PUT body with price -5 is rejected
with 400 and leaves the empty store unchanged. -/
theorem price_nonpositive_rejected_witness :
    ((postRoute emptyStore
        (Request.mk [("id", "1")]
          [("name", JVal.vStr "Monitor"), ("price", JVal.vNum (-5))])).1.status = 400
      ∧ (postRoute emptyStore
          (Request.mk [("id", "1")]
            [("name", JVal.vStr "Monitor"), ("price", JVal.vNum (-5))])).2 = emptyStore)
    ∧ ((putRoute emptyStore
        (Request.mk [("id", "1")]
          [("name", JVal.vStr "Monitor"), ("price", JVal.vNum (-5))])).1.status = 400
      ∧ (putRoute emptyStore
          (Request.mk [("id", "1")]
            [("name", JVal.vStr "Monitor"), ("price", JVal.vNum (-5))])).2 = emptyStore) :=
  price_nonpositive_rejected emptyStore
    (Request.mk [("id", "1")] [("name", JVal.vStr "Monitor"), ("price", JVal.vNum (-5))])
    (-5) (by rfl) (by norm_num)

/-- C5: every POST and every PUT whose name field is the empty string is
rejected with status 400, and the itemized error list of the response
contains an entry for the name field. -/
theorem empty_name_rejected (s : Store) (req : Request)
    (hn : lookupField req.body "name" = some (JVal.vStr "")) :
    (∃ es, (postRoute s req).1 = Response.mk 400 (RespBody.errors es)
        ∧ ∃ e ∈ es, e.field = "name")
    ∧ (∃ es, (putRoute s req).1 = Response.mk 400 (RespBody.errors es)
        ∧ ∃ e ∈ es, e.field = "name") := by
  have hf : nameNotEmptyCheck.passes req = false := by
    unfold nameNotEmptyCheck
    simp [hn, notEmptyVal]
  have hpost := @route_apply_fail postChecks createProduct s req
    nameNotEmptyCheck (by simp [postChecks]) hf
  have hput := @route_apply_fail putChecks updateProduct s req
    nameNotEmptyCheck (by simp [putChecks]) hf
  constructor
  · refine ⟨runChain postChecks req, ?_, ?_⟩
    · show (route postChecks createProduct s req).1 = _
      rw [hpost.1]
    · exact ⟨ErrItem.mk "name" "El nombre del producto no puede ir vacío", hpost.2, rfl⟩
  · refine ⟨runChain putChecks req, ?_, ?_⟩
    · show (route putChecks updateProduct s req).1 = _
      rw [hput.1]
    · exact ⟨ErrItem.mk "name" "El nombre del producto no puede ir vacío", hput.2, rfl⟩

/-- C5 witness: the concrete POST and PUT body with empty name and price
10 is rejected with 400 and the error list names the name field. -/
theorem empty_name_rejected_witness :
    (∃ es, (postRoute emptyStore
        (Request.mk [("id", "1")]
          [("name", JVal.vStr ""), ("price", JVal.vNum 10)])).1 =
          Response.mk 400 (RespBody.errors es)
        ∧ ∃ e ∈ es, e.field = "name")
    ∧ (∃ es, (putRoute emptyStore
        (Request.mk [("id", "1")]
          [("name", JVal.vStr ""), ("price", JVal.vNum 10)])).1 =
          Response.mk 400 (RespBody.errors es)
        ∧ ∃ e ∈ es, e.field = "name") :=
  empty_name_rejected emptyStore
    (Request.mk [("id", "1")] [("name", JVal.vStr ""), ("price", JVal.vNum 10)])
    (by rfl)

/-- C6: the claim that a GET by id answers 400 whenever the id is not a
positive integer is contradicted by the code: the route only checks
`isInt`, so the id "-5", an integer that is not positive, passes
validation and the handler answers 404 on the empty store, not 400. -/
theorem getById_negative_id_counterexample :
    parseIntStr "-5" = some (-5)
    ∧ ((-5 : Int) ≤ 0)
    ∧ isIntStr "-5" = true
    ∧ (getByIdRoute emptyStore (Request.mk [("id", "-5")] [])).1.status = 404
    ∧ (getByIdRoute emptyStore (Request.mk [("id", "-5")] [])).1.status ≠ 400 := by
  refine ⟨by decide, by decide, by decide, by decide, by decide⟩

/-- C6 (amended): for a GET by id, when the id path parameter is not an
integer (the isInt check, with no positivity requirement) the response is
400; when it is an integer with no matching row the response is 404 with
an error message; and when a row matches the response is 200 with the
product. -/
theorem getById_trichotomy (s : Store) (req : Request) (idStr : String)
    (h : getParam req "id" = some idStr) :
    (isIntStr idStr = false →
        getByIdRoute s req =
          (Response.mk 400 (RespBody.errors [ErrItem.mk "id" "ID no válido"]), s))
    ∧ (∀ i : Int, parseIntStr idStr = some i → findById s i = none →
        getByIdRoute s req =
          (Response.mk 404 (RespBody.errMsg "Producto No Encontrado"), s))
    ∧ (∀ (i : Int) (p : Product), parseIntStr idStr = some i → findById s i = some p →
        getByIdRoute s req = (Response.mk 200 (RespBody.product p), s)) := by
  refine ⟨?_, ?_, ?_⟩
  · intro hf
    have hchain : runChain getByIdChecks req = [ErrItem.mk "id" "ID no válido"] := by
      simp [getByIdChecks, runChain, idIsIntCheck, h, hf]
    have h400 := @route_eq_400_of_ne_nil getByIdChecks getProductById s req
      (by rw [hchain]; exact List.cons_ne_nil _ _)
    rw [hchain] at h400
    exact h400
  · intro i hi hfind
    have hchain : runChain getByIdChecks req = [] := by
      simp [getByIdChecks, runChain, idIsIntCheck, h, isIntStr, hi]
    rw [show getByIdRoute s req = getProductById s req from
      route_eq_handler_of_nil hchain]
    unfold getProductById
    simp [h, hi, hfind]
  · intro i p hi hfind
    have hchain : runChain getByIdChecks req = [] := by
      simp [getByIdChecks, runChain, idIsIntCheck, h, isIntStr, hi]
    rw [show getByIdRoute s req = getProductById s req from
      route_eq_handler_of_nil hchain]
    unfold getProductById
    simp [h, hi, hfind]

/-- C6 (amended) witness: a non-integer id answers 400, the absent
integer id 7 answers 404 on the empty store, and id 1 answers 200 with
the stored product. -/
theorem getById_trichotomy_witness :
    getByIdRoute emptyStore (Request.mk [("id", "hola")] []) =
      (Response.mk 400 (RespBody.errors [ErrItem.mk "id" "ID no válido"]), emptyStore)
    ∧ getByIdRoute emptyStore (Request.mk [("id", "7")] []) =
      (Response.mk 404 (RespBody.errMsg "Producto No Encontrado"), emptyStore)
    ∧ getByIdRoute (Store.mk [Product.mk 1 "Monitor" 300 true] 2)
        (Request.mk [("id", "1")] []) =
      (Response.mk 200 (RespBody.product (Product.mk 1 "Monitor" 300 true)),
       Store.mk [Product.mk 1 "Monitor" 300 true] 2) :=
  ⟨(getById_trichotomy emptyStore (Request.mk [("id", "hola")] []) "hola"
      (by rfl)).1 (by decide),
   (getById_trichotomy emptyStore (Request.mk [("id", "7")] []) "7"
      (by rfl)).2.1 7 (by decide) (by decide),
   (getById_trichotomy (Store.mk [Product.mk 1 "Monitor" 300 true] 2)
      (Request.mk [("id", "1")] []) "1" (by rfl)).2.2 1
      (Product.mk 1 "Monitor" 300 true) (by decide) (by decide)⟩

/-- C7: every POST whose body passes the validator chain and carries a
string name and a numeric price answers 201 with the created object,
whose availability is true and whose id is the one the store assigns
next, distinct from the id of every existing product. -/
theorem create_valid_assigns (s : Store) (req : Request) (n : String) (q : ℚ)
    (hn : lookupField req.body "name" = some (JVal.vStr n))
    (hp : lookupField req.body "price" = some (JVal.vNum q))
    (hv : runChain postChecks req = [])
    (hinv : ∀ p ∈ s.products, p.id < s.nextId) :
    postRoute s req =
      (Response.mk 201 (RespBody.product (Product.mk s.nextId n q true)),
       Store.mk (s.products ++ [Product.mk s.nextId n q true]) (s.nextId + 1))
    ∧ (Product.mk s.nextId n q true).availability = true
    ∧ ∀ p ∈ s.products, p.id ≠ (Product.mk s.nextId n q true).id := by
  refine ⟨?_, rfl, ?_⟩
  · rw [show postRoute s req = createProduct s req from
      route_eq_handler_of_nil hv]
    unfold createProduct
    rw [hn, hp]
  · intro p hmem
    exact Nat.ne_of_lt (hinv p hmem)

/-- C7 witness: posting name Monitor with price 300 to the empty store
creates product 1 with availability true. -/
theorem create_valid_assigns_witness :
    postRoute emptyStore
      (Request.mk [] [("name", JVal.vStr "Monitor"), ("price", JVal.vNum 300)]) =
      (Response.mk 201 (RespBody.product (Product.mk 1 "Monitor" 300 true)),
       Store.mk [Product.mk 1 "Monitor" 300 true] 2)
    ∧ (Product.mk 1 "Monitor" 300 true).availability = true
    ∧ ∀ p ∈ emptyStore.products, p.id ≠ (Product.mk 1 "Monitor" 300 true).id :=
  create_valid_assigns emptyStore
    (Request.mk [] [("name", JVal.vStr "Monitor"), ("price", JVal.vNum 300)])
    "Monitor" 300 (by rfl) (by rfl) (by decide) (by decide)

/-- C8: every successful PATCH (a 200 with an updated product) leaves
name and price untouched: the returned product shares the name, price and
id of a stored row, only its availability is flipped, and every row of
the resulting store keeps the name and price of a row of the old store
with the same id. -/
theorem patch_preserves_name_price (s : Store) (req : Request)
    (p2 : Product) (s2 : Store)
    (h : patchRoute s req = (Response.mk 200 (RespBody.product p2), s2)) :
    (∃ p ∈ s.products, p.name = p2.name ∧ p.price = p2.price
        ∧ p2.availability = !p.availability ∧ p2.id = p.id)
    ∧ ∀ x2 ∈ s2.products, ∃ x ∈ s.products,
        x.id = x2.id ∧ x.name = x2.name ∧ x.price = x2.price := by
  unfold patchRoute updateAvailability at h
  cases hb : (getParam req "id").bind parseIntStr with
  | none => simp only [hb] at h; simp at h
  | some i =>
      cases hf : findById s i with
      | none => simp only [hb, hf] at h; simp at h
      | some p =>
          simp only [hb, hf] at h
          have hmem : p ∈ s.products := List.mem_of_find?_eq_some hf
          simp only [Prod.mk.injEq, Response.mk.injEq, RespBody.product.injEq,
            true_and] at h
          obtain ⟨hp2, hs2⟩ := h
          subst hp2
          subst hs2
          refine ⟨⟨p, hmem, rfl, rfl, rfl, rfl⟩, ?_⟩
          intro x2 hx2
          rcases List.mem_map.mp hx2 with ⟨x, hxmem, rfl⟩
          by_cases hxid : (x.id == p.id) = true
          · exact ⟨p, hmem, by simp [hxid], by simp [hxid], by simp [hxid]⟩
          · exact ⟨x, hxmem, by simp [hxid], by simp [hxid], by simp [hxid]⟩

/-- C8 witness: patching product 1 flips availability from true to false
and keeps name Monitor and price 300 in the response and in the store. -/
theorem patch_preserves_name_price_witness :
    (∃ p ∈ (Store.mk [Product.mk 1 "Monitor" 300 true] 2).products,
        p.name = (Product.mk 1 "Monitor" 300 false).name
        ∧ p.price = (Product.mk 1 "Monitor" 300 false).price
        ∧ (Product.mk 1 "Monitor" 300 false).availability = !p.availability
        ∧ (Product.mk 1 "Monitor" 300 false).id = p.id)
    ∧ ∀ x2 ∈ (Store.mk [Product.mk 1 "Monitor" 300 false] 2).products,
        ∃ x ∈ (Store.mk [Product.mk 1 "Monitor" 300 true] 2).products,
          x.id = x2.id ∧ x.name = x2.name ∧ x.price = x2.price :=
  patch_preserves_name_price (Store.mk [Product.mk 1 "Monitor" 300 true] 2)
    (Request.mk [("id", "1")] []) (Product.mk 1 "Monitor" 300 false)
    (Store.mk [Product.mk 1 "Monitor" 300 false] 2) (by decide)

/-- C9: delete is idempotent to observation: whenever a DELETE of an id
answers 200, the same DELETE against the resulting store answers 404. -/
theorem delete_idempotent_observation (s : Store) (req : Request)
    (r1 : Response) (s1 : Store)
    (h : deleteRoute s req = (r1, s1)) (h200 : r1.status = 200) :
    (deleteRoute s1 req).1.status = 404 := by
  by_cases hc : runChain deleteChecks req = []
  · have hroute : ∀ s0 : Store, deleteRoute s0 req = deleteProduct s0 req := by
      intro s0
      unfold deleteRoute
      exact @route_eq_handler_of_nil deleteChecks deleteProduct s0 req hc
    have h1 : deleteProduct s req = (r1, s1) := by rw [← hroute s]; exact h
    rw [hroute s1]
    cases hb : (getParam req "id").bind parseIntStr with
    | none =>
        simp only [deleteProduct, hb, Prod.mk.injEq] at h1
        rw [← h1.1] at h200
        simp at h200
    | some i =>
        cases hf : findById s i with
        | none =>
            simp only [deleteProduct, hb, hf, Prod.mk.injEq] at h1
            rw [← h1.1] at h200
            simp at h200
        | some p =>
            simp only [deleteProduct, hb, hf, Prod.mk.injEq] at h1
            obtain ⟨-, hs1⟩ := h1
            subst hs1
            simp only [deleteProduct, hb, findById_filter_self]
  · have h400 := @route_eq_400_of_ne_nil deleteChecks deleteProduct s req hc
    unfold deleteRoute at h
    rw [h400] at h
    simp only [Prod.mk.injEq] at h
    rw [← h.1] at h200
    simp at h200

/-- C9 witness: deleting product 1 answers 200 and leaves the store
empty, and the same delete against that store answers 404. -/
theorem delete_idempotent_observation_witness :
    (deleteRoute (Store.mk [] 2) (Request.mk [("id", "1")] [])).1.status = 404 :=
  delete_idempotent_observation
    (Store.mk [Product.mk 1 "Monitor" 300 true] 2) (Request.mk [("id", "1")] [])
    (Response.mk 200 (RespBody.msg "Producto Eliminado")) (Store.mk [] 2)
    (by decide) (by decide)

/-- C10: the claim that connectDB catches and logs every database error
is contradicted by the code: db.sync() is called without await, so when
only the sync promise rejects the catch block never sees it; nothing is
logged and the rejection is unhandled. -/
theorem connectDB_sync_uncaught_counterexample :
    (connectDB (Except.ok ()) (Except.error "ECONNREFUSED")).errorLogged = false
    ∧ (connectDB (Except.ok ()) (Except.error "ECONNREFUSED")).unhandledSyncRejection
        = true := by
  refine ⟨rfl, rfl⟩

/-- C10 (amended): connectDB always returns normally and the server
object is constructed and exported whatever the database does; a rejected
authentication is caught and logged, but a rejected synchronization is
not caught: the catch logs nothing and the rejection stays unhandled,
because the sync call is not awaited. -/
theorem connectDB_returns_normally (auth sync : Except String Unit) :
    (connectDB auth sync).returnedNormally = true
    ∧ (initServerModule auth sync).serverExported = true
    ∧ (∀ e, auth = Except.error e → (connectDB auth sync).errorLogged = true)
    ∧ (∀ e, auth = Except.ok () → sync = Except.error e →
        (connectDB auth sync).errorLogged = false
        ∧ (connectDB auth sync).unhandledSyncRejection = true) := by
  cases auth with
  | error e => refine ⟨rfl, rfl, fun _ _ => rfl, ?_⟩; intro e2 hok; cases hok
  | ok u =>
      cases sync with
      | error e =>
          refine ⟨rfl, rfl, ?_, ?_⟩
          · intro e2 herr; cases herr
          · intro e2 _ _; exact ⟨rfl, rfl⟩
      | ok v =>
          refine ⟨rfl, rfl, ?_, ?_⟩
          · intro e2 herr; cases herr
          · intro e2 _ hsync; cases hsync

/-- C10 (amended) witness: with a failing authentication the error is
logged; with a good authentication and a failing synchronization nothing
is logged and the rejection is unhandled, while the module still exports
the server. -/
theorem connectDB_returns_normally_witness :
    (connectDB (Except.error "down") (Except.ok ())).errorLogged = true
    ∧ (connectDB (Except.ok ()) (Except.error "down")).errorLogged = false
    ∧ (connectDB (Except.ok ()) (Except.error "down")).unhandledSyncRejection = true
    ∧ (initServerModule (Except.ok ()) (Except.error "down")).serverExported = true :=
  ⟨(connectDB_returns_normally (Except.error "down") (Except.ok ())).2.2.1 "down" rfl,
   ((connectDB_returns_normally (Except.ok ()) (Except.error "down")).2.2.2 "down"
      rfl rfl).1,
   ((connectDB_returns_normally (Except.ok ()) (Except.error "down")).2.2.2 "down"
      rfl rfl).2,
   (connectDB_returns_normally (Except.ok ()) (Except.error "down")).2.1⟩

end ProductApp





